import Mathlib

/-!
A verification development for the admin-panel websocket protocol layer of
the repository: the client socket service (request correlator, subscription
dispatcher, reconnect state machine from `src/services/socket.js`) and the
server side (message dispatch, job-progress interval driver, env store and
error replies from the server source file).

JavaScript runtime objects are embedded shallowly: `Map`/`Set` become
association lists with the `Map` operations, JS primitive values become
`JSValue`, promise settlement and `setInterval` ticks become explicit
outputs of step functions, and `ws.send`/`broadcast` readiness checks are
kept explicit.  Every definition is translated from the source file it
names in its doc comment.
-/

namespace Dffoo

/-- A primitive JavaScript value, as stored in the server `ENV_VALUES`
object and carried in `setEnvValue` payload fields. -/
inductive JSValue where
  | str (s : String)
  | num (n : Int)
  | bool (b : Bool)
  | null
  | undef
deriving DecidableEq

/-- JavaScript `typeof` on the modelled values (`typeof null` is
`"object"`, `typeof undefined` is `"undefined"`). -/
def typeof : JSValue → String
  | .str _ => "string"
  | .num _ => "number"
  | .bool _ => "boolean"
  | .null => "object"
  | .undef => "undefined"

/-- JavaScript property-key coercion, used by `values[msg.payload.key]`
when the key is not a string. -/
def propKey : JSValue → String
  | .str s => s
  | .num n => toString n
  | .bool b => if b then "true" else "false"
  | .null => "null"
  | .undef => "undefined"

/-- Loose equality with `undefined` (JS `x == undefined`): true exactly
for `null` and `undefined`. -/
def isNullish : JSValue → Bool
  | .null => true
  | .undef => true
  | _ => false

/-- JS `x == undefined` where `x` may be an absent field or property
(absent reads as `undefined`). -/
def isNullishOpt : Option JSValue → Bool
  | none => true
  | some v => isNullish v

/-- `typeof x` where `x` may be absent (absent reads as `undefined`). -/
def typeofOpt : Option JSValue → String
  | none => "undefined"
  | some v => typeof v

/-- `Map.get` on an association-list model of a JS `Map` (or plain-object
property read): the value at the first matching key. -/
def mapGet {α β : Type} [DecidableEq α] (l : List (α × β)) (k : α) : Option β :=
  (l.find? fun p => decide (p.1 = k)).map fun p => p.2

/-- `Map.delete`: drop the entries with the given key. -/
def mapDelete {α β : Type} [DecidableEq α] (l : List (α × β)) (k : α) : List (α × β) :=
  l.filter fun p => decide (p.1 ≠ k)

/-- `Map.set` / JS object property assignment: replace in place when the
key is present, append otherwise. -/
def mapSet {α β : Type} [DecidableEq α] (l : List (α × β)) (k : α) (v : β) : List (α × β) :=
  if (mapGet l k).isSome then l.map fun p => if p.1 = k then (k, v) else p
  else l ++ [(k, v)]

/-- `Set.add` on an insertion-ordered list model of a JS `Set`. -/
def setAdd (l : List Nat) (x : Nat) : List Nat :=
  if x ∈ l then l else l ++ [x]

/-- `Set.delete`. -/
def setDelete (l : List Nat) (x : Nat) : List Nat :=
  l.filter fun y => decide (y ≠ x)

theorem mapGet_cons {α β : Type} [DecidableEq α] (a : α) (b : β) (t : List (α × β)) (k : α) :
    mapGet ((a, b) :: t) k = if a = k then some b else mapGet t k := by
  by_cases hak : a = k
  · simp [mapGet, List.find?, hak]
  · simp [mapGet, List.find?, hak]

theorem mapGet_append {α β : Type} [DecidableEq α] (l r : List (α × β)) (k : α) :
    mapGet (l ++ r) k = match mapGet l k with | some v => some v | none => mapGet r k := by
  induction l with
  | nil => simp [mapGet]
  | cons p t ih =>
      obtain ⟨a, b⟩ := p
      by_cases hp : a = k
      · simp [mapGet_cons, hp]
      · simpa [mapGet_cons, hp] using ih

theorem mapGet_replace_self {α β : Type} [DecidableEq α] (l : List (α × β)) (k : α) (v : β) :
    mapGet (l.map fun p => if p.1 = k then (k, v) else p) k =
      if (mapGet l k).isSome then some v else none := by
  induction l with
  | nil => simp [mapGet]
  | cons p t ih =>
      obtain ⟨a, b⟩ := p
      by_cases hp : a = k
      · simp [mapGet_cons, hp]
      · simpa [mapGet_cons, hp] using ih

theorem mapGet_replace_ne {α β : Type} [DecidableEq α] (l : List (α × β)) (k k2 : α) (v : β)
    (h : k2 ≠ k) :
    mapGet (l.map fun p => if p.1 = k then (k, v) else p) k2 = mapGet l k2 := by
  induction l with
  | nil => simp [mapGet]
  | cons p t ih =>
      obtain ⟨a, b⟩ := p
      by_cases hp : a = k
      · subst hp
        simpa [mapGet_cons, Ne.symm h] using ih
      · by_cases hak2 : a = k2
        · subst hak2
          simp [mapGet_cons, hp, h]
        · simpa [mapGet_cons, hp, hak2] using ih

theorem mapGet_mapSet_self {α β : Type} [DecidableEq α] (l : List (α × β)) (k : α) (v : β) :
    mapGet (mapSet l k v) k = some v := by
  unfold mapSet
  by_cases hs : (mapGet l k).isSome
  · simp [hs, mapGet_replace_self]
  · rw [if_neg hs, mapGet_append]
    rw [Option.not_isSome_iff_eq_none] at hs
    simp [hs, mapGet_cons]

theorem mapGet_mapSet_ne {α β : Type} [DecidableEq α] (l : List (α × β)) (k k2 : α) (v : β)
    (h : k2 ≠ k) : mapGet (mapSet l k v) k2 = mapGet l k2 := by
  unfold mapSet
  by_cases hs : (mapGet l k).isSome
  · simp [hs, mapGet_replace_ne _ _ _ _ h]
  · rw [if_neg hs, mapGet_append]
    cases hg : mapGet l k2 with
    | some v2 => simp
    | none => simp [mapGet_cons, Ne.symm h, mapGet]

/-- The env store (`ENV_VALUES` in the server source): a JS object mapping
string keys to primitive values, modelled as an insertion-ordered
association list. -/
abbrev EnvStore := List (String × JSValue)

/-- Wire payload shapes: one constructor per payload shape occurring in
the source (absent and `null` payloads included, since the server reads
fields off the payload). -/
inductive JPayload where
  | undef
  | jnull
  | obj (key : Option JSValue) (value : Option JSValue)
  | success (b : Bool)
  | time (t : String)
  | envValues (env : EnvStore)
  | job (jobId : Int) (status : String) (progress : Int)
  | message (m : String)
  | logFile (name : String) (text : String)
deriving DecidableEq

/-- The wire envelope `\x7btype, id, payload\x7d`.  `id` is optional: frames
built without an `id` field serialize without one. -/
structure Envelope where
  type : String
  id : Option Int
  payload : JPayload
deriving DecidableEq

/-- Client connection-manager / correlator state: the module-level
variables of `src/services/socket.js` (`socket`, `reconnectTimer`,
`connectionState`, `messageListeners`, `pendingRequests`, `requestId`,
`reconnectAttempts`).  The socket is represented by its `readyState`
(0 CONNECTING, 1 OPEN, 2 CLOSING, 3 CLOSED); resolver functions are
represented by integer tokens. -/
structure ClientState where
  socket : Option Nat
  reconnectTimer : Bool
  connectionState : String
  messageListeners : List (String × List Nat)
  pendingRequests : List (Int × Int)
  requestId : Int
  reconnectAttempts : Nat
deriving DecidableEq

/-- The state at module load. -/
def initialClient : ClientState :=
  { socket := none, reconnectTimer := false, connectionState := "Disconnected",
    messageListeners := [], pendingRequests := [], requestId := 0, reconnectAttempts := 0 }

/-- A thrown JavaScript error value. -/
inductive JsError where
  | referenceError (name : String)
deriving DecidableEq

/-- Observable effects of one client step: state-listener notifications,
reconnect-timer arming (with its delay), request-id allocation, frames
written to the socket, local promise rejection, resolver invocation and
subscription-handler invocation. -/
inductive COut where
  | stateChange (s : String)
  | scheduled (delay : Nat)
  | allocated (id : Int)
  | sentFrame (m : Envelope)
  | rejectedLocal (e : JsError)
  | resolved (tok : Int) (m : Envelope)
  | notified (h : Nat) (m : Envelope)
deriving DecidableEq

/-- Events delivered to the client service: a `startSocket`/`connect`
call, the socket open/close listeners, the reconnect timer firing, a
`request` call, and the socket message listener. -/
inductive CEvent where
  | connectEv
  | openEv
  | closeEv
  | timerEv
  | reqEv (t : String) (pl : JPayload)
  | msgEv (m : Envelope)
deriving DecidableEq

/-- `scheduleReconnect` (socket.js:39-51): no-op when a timer is already
armed; otherwise increments `reconnectAttempts` first and arms a timer
for `min(1000 * 2 ** reconnectAttempts, 10000)` milliseconds. -/
def scheduleReconnect (st : ClientState) : ClientState × List COut :=
  if st.reconnectTimer then (st, [])
  else
    let a := st.reconnectAttempts + 1
    let delay := min (1000 * 2 ^ a) 10000
    ({ st with reconnectAttempts := a, reconnectTimer := true }, [.scheduled delay])

/-- The guard of `connect` (socket.js:54-59): `socket` exists and its
`readyState` is `OPEN` or `CONNECTING`. -/
def socketOpenOrConnecting : Option Nat → Bool
  | some rs => rs == 1 || rs == 0
  | none => false

/-- `connect` (socket.js:53-122): idempotent while open/connecting;
otherwise transitions to `"Connecting..."` and opens a fresh socket
(readyState `CONNECTING`), installing the close/open/message listeners. -/
def connect (st : ClientState) : ClientState × List COut :=
  if socketOpenOrConnecting st.socket then (st, [])
  else ({ st with connectionState := "Connecting...", socket := some 0 },
        [.stateChange "Connecting..."])

/-- The socket `open` listener (socket.js:73-77): reset
`reconnectAttempts` to 0 and transition to `"Connected"` (the socket
itself has just become OPEN). -/
def openListener (st : ClientState) : ClientState × List COut :=
  match st.socket with
  | none => (st, [])
  | some _ =>
      ({ st with socket := some 1, reconnectAttempts := 0, connectionState := "Connected" },
       [.stateChange "Connected"])

/-- The socket `close` listener (socket.js:67-71): the socket is now
CLOSED; transition to `"Disconnected"` and schedule a reconnect. -/
def closeListener (st : ClientState) : ClientState × List COut :=
  match st.socket with
  | none => (st, [])
  | some _ =>
      let st1 := { st with socket := some 3, connectionState := "Disconnected" }
      let r := scheduleReconnect st1
      (r.1, .stateChange "Disconnected" :: r.2)

/-- The reconnect timer callback (socket.js:46-50): clear the timer
handle, then `connect()`. -/
def timerFire (st : ClientState) : ClientState × List COut :=
  if st.reconnectTimer then connect { st with reconnectTimer := false }
  else (st, [])

/-- The message types the client message listener (socket.js:86-101)
routes to the request correlator: `error` plus the correlated
request/response types.  (`test` is absent from this list in the
source.) -/
def clientCorrelated : List String :=
  ["error", "downloadLog", "timeRequest", "getEnvValues", "setEnvValue", "startProcess",
   "restartServer", "shutdownServer", "installAsset", "uninstallAsset", "installPatch",
   "uninstallPatch", "getUserAccounts", "getSecret", "switchDevice"]

/-- The socket `message` listener (socket.js:79-121): correlated-type
envelopes look up `pendingRequests` by `msg.id`, invoke the resolver if
present and delete its entry; all other types are multicast to the
handlers subscribed to that type (silently dropped when none). -/
def onMessage (st : ClientState) (m : Envelope) : ClientState × List COut :=
  if m.type ∈ clientCorrelated then
    match m.id with
    | some i =>
        match mapGet st.pendingRequests i with
        | some tok =>
            ({ st with pendingRequests := mapDelete st.pendingRequests i }, [.resolved tok m])
        | none => (st, [])
    | none => (st, [])
  else
    match mapGet st.messageListeners m.type with
    | some subs => (st, subs.map fun h => .notified h m)
    | none => (st, [])

/-- `request` (socket.js:210-227).  When the socket is open the executor
allocates `id = requestId++`, stores the resolver (its token is the id)
and writes the frame.  When the socket is missing or not OPEN, the
executor logs and evaluates `resolve(\x7b type: "error", id: id, ... \x7d)`:
`id` is read before the `const id` declaration on the following line, so
under JS temporal-dead-zone rules this throws a `ReferenceError`, which
rejects the promise before the enqueue and send lines can run. -/
def request (st : ClientState) (t : String) (pl : JPayload) : ClientState × List COut :=
  if ¬ (st.socket = some 1) then
    (st, [.rejectedLocal (.referenceError "id")])
  else
    let i := st.requestId
    ({ st with requestId := i + 1, pendingRequests := mapSet st.pendingRequests i i },
     [.allocated i, .sentFrame { type := t, id := some i, payload := pl }])

/-- The first statement of `subscribe` (socket.js:168-170): create the
per-type set on first use. -/
def subscribeBase (ls : List (String × List Nat)) (t : String) : List (String × List Nat) :=
  if (mapGet ls t).isSome then ls else mapSet ls t []

/-- `subscribe` (socket.js:167-177): create the per-type set on first
use, then `messageListeners.get(type).add(handler)`. -/
def subscribe (ls : List (String × List Nat)) (t : String) (h : Nat) :
    List (String × List Nat) :=
  mapSet (subscribeBase ls t) t (setAdd ((mapGet (subscribeBase ls t) t).getD []) h)

/-- The closure returned by `subscribe` (socket.js:174-176):
`messageListeners.get(type).delete(handler)`.  Returns `none` when
`get(type)` is `undefined` (reading `.delete` off it would throw). -/
def unsubscribe (ls : List (String × List Nat)) (t : String) (h : Nat) :
    Option (List (String × List Nat)) :=
  match mapGet ls t with
  | none => none
  | some s => some (mapSet ls t (setDelete s h))

/-- Dispatch one event to the client service. -/
def step (st : ClientState) : CEvent → ClientState × List COut
  | .connectEv => connect st
  | .openEv => openListener st
  | .closeEv => closeListener st
  | .timerEv => timerFire st
  | .reqEv t pl => request st t pl
  | .msgEv m => onMessage st m

/-- Run a sequence of client events, concatenating the outputs. -/
def clientRun (st : ClientState) : List CEvent → ClientState × List COut
  | [] => (st, [])
  | e :: es =>
      let r1 := step st e
      let r2 := clientRun r1.1 es
      (r2.1, r1.2 ++ r2.2)

/-- Run a sequence of inbound envelopes through the message listener. -/
def runMsgs (st : ClientState) : List Envelope → ClientState × List COut
  | [] => (st, [])
  | m :: ms =>
      let r1 := onMessage st m
      let r2 := runMsgs r1.1 ms
      (r2.1, r1.2 ++ r2.2)

/-- The reconnect delays armed during a run. -/
def scheduledDelays (outs : List COut) : List Nat :=
  outs.filterMap fun o => match o with | .scheduled d => some d | _ => none

/-- The request ids allocated during a run. -/
def allocatedIds (outs : List COut) : List Int :=
  outs.filterMap fun o => match o with | .allocated i => some i | _ => none

/-- The number of resolver invocations carrying a given envelope id. -/
def resolvedCount (i : Int) (outs : List COut) : Nat :=
  outs.countP fun o => match o with | .resolved _ m => decide (m.id = some i) | _ => false

/-- Fresh start, then five consecutive immediate connection failures
(close fires, the armed timer later fires and reconnects), then one
successful open, then one more failure. -/
def backoffScenario : List CEvent :=
  [.connectEv, .closeEv, .timerEv, .closeEv, .timerEv, .closeEv, .timerEv, .closeEv,
   .timerEv, .closeEv, .timerEv, .openEv, .closeEv]

/-- Claim C4: with base 1000 ms and cap 10000 ms, five consecutive
immediate connection failures from a fresh state schedule reconnect
delays 2000, 4000, 8000, 10000, 10000 ms, and after one successful open
the attempt counter resets so the next failure schedules 2000 ms again. -/
theorem claim4_backoff_delays :
    scheduledDelays (clientRun initialClient backoffScenario).2 =
      [2000, 4000, 8000, 10000, 10000, 2000] := by
  decide

/-- Claim C5 (behaviour at the failing input): a `request` made while the
socket is absent or not OPEN rejects the promise with a
`ReferenceError` for the binding `id` — not with the intended
`NotConnected`-style error envelope — and leaves the state unchanged:
nothing is queued in `pendingRequests`, no id is allocated, and no frame
is transmitted. -/
theorem claim5_request_not_connected_behaviour (st : ClientState) (t : String) (pl : JPayload)
    (h : ¬ (st.socket = some 1)) :
    request st t pl = (st, [.rejectedLocal (.referenceError "id")]) := by
  simp [request, h]

/-- Witness for `claim5_request_not_connected_behaviour` at the initial
state (no socket yet): the call rejects locally with the reference
error, queues nothing and transmits nothing. -/
theorem claim5_request_not_connected_behaviour_witness :
    request initialClient "timeRequest" .undef =
      (initialClient, [.rejectedLocal (.referenceError "id")]) :=
  claim5_request_not_connected_behaviour initialClient "timeRequest" .undef (by decide)

theorem clientRun_cons (st : ClientState) (e : CEvent) (es : List CEvent) :
    clientRun st (e :: es) =
      ((clientRun (step st e).1 es).1, (step st e).2 ++ (clientRun (step st e).1 es).2) := rfl

theorem runMsgs_cons (st : ClientState) (m : Envelope) (ms : List Envelope) :
    runMsgs st (m :: ms) =
      ((runMsgs (onMessage st m).1 ms).1,
       (onMessage st m).2 ++ (runMsgs (onMessage st m).1 ms).2) := rfl

theorem allocatedIds_append (a b : List COut) :
    allocatedIds (a ++ b) = allocatedIds a ++ allocatedIds b := by
  simp [allocatedIds]

theorem resolvedCount_append (i : Int) (a b : List COut) :
    resolvedCount i (a ++ b) = resolvedCount i a + resolvedCount i b := by
  simp [resolvedCount, List.countP_append]


theorem mapGet_mapDelete_self {α β : Type} [DecidableEq α] (l : List (α × β)) (k : α) :
    mapGet (mapDelete l k) k = none := by
  induction l with
  | nil => rfl
  | cons p t ih =>
      obtain ⟨a, b⟩ := p
      by_cases hp : a = k
      · simpa [mapDelete, hp] using ih
      · simpa [mapDelete, hp, mapGet_cons] using ih

theorem mapGet_mapDelete_ne {α β : Type} [DecidableEq α] (l : List (α × β)) (k k2 : α)
    (h : k2 ≠ k) : mapGet (mapDelete l k) k2 = mapGet l k2 := by
  induction l with
  | nil => rfl
  | cons p t ih =>
      obtain ⟨a, b⟩ := p
      by_cases hp : a = k
      · subst hp
        simpa [mapDelete, mapGet_cons, Ne.symm h] using ih
      · by_cases hak2 : a = k2
        · subst hak2
          simp [mapDelete, List.filter_cons, hp, h, mapGet_cons]
        · simpa [mapDelete, hp, mapGet_cons, hak2] using ih

/-- A step of the message listener never re-adds a pending entry: an id
absent from `pendingRequests` stays absent. -/
theorem onMessage_absent_preserved (st : ClientState) (m : Envelope) (i : Int)
    (h : mapGet st.pendingRequests i = none) :
    mapGet (onMessage st m).1.pendingRequests i = none := by
  unfold onMessage
  by_cases hc : m.type ∈ clientCorrelated
  · simp only [hc, if_true]
    cases hm : m.id with
    | none => simpa using h
    | some j =>
        cases hg : mapGet st.pendingRequests j with
        | none => simp only [hg]; simpa using h
        | some tok =>
            simp only [hg]
            by_cases hij : i = j
            · subst hij
              simp [mapGet_mapDelete_self]
            · simpa [mapGet_mapDelete_ne _ _ _ hij] using h
  · simp only [hc, if_false]
    cases hg : mapGet st.messageListeners m.type with
    | none => simp only [hg]; simpa using h
    | some subs => simp only [hg]; simpa using h

/-- A step of the message listener produces no resolver invocation for an
id that has no pending entry. -/
theorem onMessage_absent_no_resolution (st : ClientState) (m : Envelope) (i : Int)
    (h : mapGet st.pendingRequests i = none) :
    resolvedCount i (onMessage st m).2 = 0 := by
  unfold onMessage
  by_cases hc : m.type ∈ clientCorrelated
  · simp only [hc, if_true]
    cases hm : m.id with
    | none => simp [resolvedCount]
    | some j =>
        cases hg : mapGet st.pendingRequests j with
        | none => simp only [hg]; simp [resolvedCount]
        | some tok =>
            have hij : j ≠ i := by
              intro hji
              rw [hji, h] at hg
              cases hg
            simp only [hg]
            simp [resolvedCount, hm, hij]
  · simp only [hc, if_false]
    cases hg : mapGet st.messageListeners m.type with
    | none => simp only [hg]; simp [resolvedCount]
    | some subs => simp only [hg]; simp [resolvedCount, List.countP_map]

/-- Once an id is absent from the pending table, no later inbound message
resolves it. -/
theorem runMsgs_absent_no_resolution (i : Int) :
    ∀ (msgs : List Envelope) (st : ClientState),
      mapGet st.pendingRequests i = none →
      resolvedCount i (runMsgs st msgs).2 = 0 := by
  intro msgs
  induction msgs with
  | nil => intro st _; simp [runMsgs, resolvedCount]
  | cons m ms ih =>
      intro st h
      rw [runMsgs_cons]
      simp only []
      rw [resolvedCount_append]
      rw [onMessage_absent_no_resolution st m i h,
          ih _ (onMessage_absent_preserved st m i h)]

/-- Any single inbound message resolves a given id at most once, and when
it does, the id leaves the pending table. -/
theorem runMsgs_at_most_once (i : Int) :
    ∀ (msgs : List Envelope) (st : ClientState),
      resolvedCount i (runMsgs st msgs).2 ≤ 1 := by
  intro msgs
  induction msgs with
  | nil => intro st; simp [runMsgs, resolvedCount]
  | cons m ms ih =>
      intro st
      rw [runMsgs_cons]
      simp only []
      rw [resolvedCount_append]
      unfold onMessage
      by_cases hc : m.type ∈ clientCorrelated
      · simp only [hc, if_true]
        cases hm : m.id with
        | none =>
            have := ih st
            simpa [resolvedCount, onMessage, hc, hm] using this
        | some j =>
            cases hg : mapGet st.pendingRequests j with
            | none =>
                simp only [hg]
                have := ih st
                simpa [resolvedCount, onMessage, hc, hm, hg] using this
            | some tok =>
                simp only [hg]
                by_cases hij : j = i
                · subst hij
                  rw [runMsgs_absent_no_resolution _ ms _ (by simp [mapGet_mapDelete_self])]
                  simp [resolvedCount, hm]
                · have hhead : resolvedCount i [COut.resolved tok m] = 0 := by
                    simp [resolvedCount, hm, hij]
                  rw [hhead]
                  simpa using ih { st with pendingRequests := mapDelete st.pendingRequests j }
      · simp only [hc, if_false]
        cases hg : mapGet st.messageListeners m.type with
        | none =>
            simp only [hg]
            simpa [resolvedCount] using ih st
        | some subs =>
            simp only [hg]
            have hhead : resolvedCount i (subs.map fun h => COut.notified h m) = 0 := by
              simp [resolvedCount, List.countP_map]
            rw [hhead]
            simpa using ih st

/-- Claim C3: a pending resolver is invoked on the first correlated-type
(or `error`) inbound envelope whose id matches, its entry is removed from
the pending table on invocation, and over any sequence of inbound
envelopes each id is resolved at most once (a stray duplicate response
does not re-invoke it). -/
theorem claim3_at_most_once_resolution (st : ClientState) (m : Envelope) (i tok : Int)
    (msgs : List Envelope) :
    (mapGet st.pendingRequests i = some tok → m.type ∈ clientCorrelated → m.id = some i →
      onMessage st m =
        ({ st with pendingRequests := mapDelete st.pendingRequests i }, [.resolved tok m]) ∧
      mapGet (onMessage st m).1.pendingRequests i = none) ∧
    resolvedCount i (runMsgs st msgs).2 ≤ 1 := by
  constructor
  · intro hg hc hid
    have hmsg : onMessage st m =
        ({ st with pendingRequests := mapDelete st.pendingRequests i }, [.resolved tok m]) := by
      unfold onMessage
      simp only [hc, if_true, hid, hg]
    refine ⟨hmsg, ?_⟩
    rw [hmsg]
    simp [mapGet_mapDelete_self]
  · exact runMsgs_at_most_once i msgs st


/-- A client state with one pending request: id 0, resolver token 7. -/
def pendingOneState : ClientState := { initialClient with pendingRequests := [(0, 7)] }

/-- A correlated response envelope for id 0. -/
def responseZero : Envelope := { type := "timeRequest", id := some 0, payload := .undef }

/-- Witness for `claim3_at_most_once_resolution`: a pending entry for id
0 with resolver token 7, receiving the same `timeRequest` response twice;
the first delivery resolves and removes the entry. -/
theorem claim3_at_most_once_resolution_witness :
    mapGet pendingOneState.pendingRequests 0 = some 7 ∧
    (onMessage pendingOneState responseZero =
      ({ pendingOneState with pendingRequests := mapDelete pendingOneState.pendingRequests 0 },
       [.resolved 7 responseZero]) ∧
     mapGet (onMessage pendingOneState responseZero).1.pendingRequests 0 = none) ∧
    resolvedCount 0 (runMsgs pendingOneState [responseZero, responseZero]).2 ≤ 1 :=
  ⟨by decide,
   (claim3_at_most_once_resolution pendingOneState responseZero 0 7
      [responseZero, responseZero]).1 (by decide) (by decide) rfl,
   (claim3_at_most_once_resolution pendingOneState responseZero 0 7
      [responseZero, responseZero]).2⟩

/-- Each client event either allocates no id and leaves `requestId`
unchanged, or (an open-socket `request`) allocates exactly the current
`requestId` and increments the counter.  In particular no event — open,
close, timer, reconnect or failed send — ever resets or reuses it. -/
theorem step_alloc (st : ClientState) (e : CEvent) :
    (allocatedIds (step st e).2 = [] ∧ (step st e).1.requestId = st.requestId) ∨
    (allocatedIds (step st e).2 = [st.requestId] ∧ (step st e).1.requestId = st.requestId + 1) := by
  cases e with
  | connectEv =>
      left
      unfold step connect
      by_cases hg : socketOpenOrConnecting st.socket <;> simp [hg, allocatedIds]
  | openEv =>
      left
      unfold step openListener
      cases st.socket <;> simp [allocatedIds]
  | closeEv =>
      left
      unfold step closeListener scheduleReconnect
      cases st.socket with
      | none => simp [allocatedIds]
      | some rs =>
          by_cases hrt : st.reconnectTimer <;> simp [hrt, allocatedIds]
  | timerEv =>
      left
      unfold step timerFire connect
      by_cases hrt : st.reconnectTimer
      · by_cases hg : socketOpenOrConnecting st.socket <;> simp [hrt, hg, allocatedIds]
      · simp [hrt, allocatedIds]
  | reqEv t pl =>
      unfold step request
      by_cases ho : st.socket = some 1
      · right
        simp [ho, allocatedIds]
      · left
        simp [ho, allocatedIds]
  | msgEv m =>
      left
      unfold step onMessage
      by_cases hc : m.type ∈ clientCorrelated
      · simp only [hc, if_true]
        cases hm : m.id with
        | none => simp [allocatedIds]
        | some j =>
            cases hg : mapGet st.pendingRequests j with
            | none => simp [hg, allocatedIds]
            | some tok => simp [hg, allocatedIds]
      · simp only [hc, if_false]
        cases hg : mapGet st.messageListeners m.type with
        | none => simp [hg, allocatedIds]
        | some subs => simp [hg, allocatedIds, List.filterMap_map]

/-- Over any event sequence, the ids allocated starting from a state are
the consecutive integers beginning at that state's `requestId`. -/
theorem clientRun_alloc :
    ∀ (evts : List CEvent) (st : ClientState),
      ∃ k : Nat,
        allocatedIds (clientRun st evts).2 =
          (List.range k).map (fun j : Nat => st.requestId + (j : Int)) ∧
        (clientRun st evts).1.requestId = st.requestId + (k : Int) := by
  intro evts
  induction evts with
  | nil =>
      intro st
      exact ⟨0, by simp [clientRun, allocatedIds], by simp [clientRun]⟩
  | cons e es ih =>
      intro st
      rcases step_alloc st e with ⟨h1, h2⟩ | ⟨h1, h2⟩
      · obtain ⟨k, hk1, hk2⟩ := ih (step st e).1
        refine ⟨k, ?_, ?_⟩
        · rw [clientRun_cons]
          simp only []
          rw [allocatedIds_append, h1, hk1, h2]
          simp
        · rw [clientRun_cons]
          simp only []
          rw [hk2, h2]
      · obtain ⟨k, hk1, hk2⟩ := ih (step st e).1
        refine ⟨k + 1, ?_, ?_⟩
        · rw [clientRun_cons]
          simp only []
          rw [allocatedIds_append, h1, hk1, h2, List.range_succ_eq_map]
          simp only [List.singleton_append, List.map_cons, List.map_map, List.cons.injEq]
          constructor
          · simp
          · apply List.map_congr_left
            intro j _
            simp only [Function.comp_apply]
            push_cast
            ring
        · rw [clientRun_cons]
          simp only []
          rw [hk2, h2]
          push_cast
          ring

/-- Claim C6: starting from the fresh client, the ids allocated by
`request` over any event sequence (requests, opens, closes, reconnect
timers, inbound messages, in any order) are exactly 0, 1, 2, …: unique,
strictly increasing, starting at 0, never reused across send failures,
and never reset by a reconnect. -/
theorem claim6_ids_strictly_increasing (evts : List CEvent) :
    allocatedIds (clientRun initialClient evts).2 =
      (List.range (allocatedIds (clientRun initialClient evts).2).length).map Int.ofNat ∧
    (allocatedIds (clientRun initialClient evts).2).Pairwise (· < ·) := by
  obtain ⟨k, hk1, hk2⟩ := clientRun_alloc evts initialClient
  have hzero : initialClient.requestId = 0 := rfl
  rw [hzero] at hk1
  have hof : allocatedIds (clientRun initialClient evts).2 = (List.range k).map Int.ofNat := by
    rw [hk1]
    apply List.map_congr_left
    intro j _
    simp [Int.ofNat_eq_natCast]
  constructor
  · rw [hof]
    simp
  · rw [hof]
    exact (List.pairwise_lt_range k).map Int.ofNat fun a b hab => Int.ofNat_lt.mpr hab

/-- Claim C9: for any handler registered via `subscribe`, calling the
returned unsubscribe closure twice raises neither time (the per-type set
entry always exists), leaves zero instances of that handler registered
for that type, keeps every other handler of that type registered exactly
as before, and leaves every other type's handler set untouched. -/
theorem claim9_unsubscribe_idempotent (ls : List (String × List Nat)) (t : String) (h : Nat) :
    ∃ ls2 ls3,
      unsubscribe (subscribe ls t h) t h = some ls2 ∧
      unsubscribe ls2 t h = some ls3 ∧
      List.count h ((mapGet ls3 t).getD []) = 0 ∧
      (∀ x, x ≠ h → ((x ∈ (mapGet ls3 t).getD []) ↔ (x ∈ (mapGet (subscribe ls t h) t).getD []))) ∧
      (∀ t2, t2 ≠ t → mapGet ls3 t2 = mapGet (subscribe ls t h) t2) := by
  have hs1 : mapGet (subscribe ls t h) t =
      some (setAdd ((mapGet (subscribeBase ls t) t).getD []) h) :=
    mapGet_mapSet_self _ _ _
  refine ⟨mapSet (subscribe ls t h) t
            (setDelete (setAdd ((mapGet (subscribeBase ls t) t).getD []) h) h),
          mapSet (mapSet (subscribe ls t h) t
              (setDelete (setAdd ((mapGet (subscribeBase ls t) t).getD []) h) h)) t
            (setDelete (setDelete (setAdd ((mapGet (subscribeBase ls t) t).getD []) h) h) h),
          ?_, ?_, ?_, ?_, ?_⟩
  · simp [unsubscribe, hs1]
  · simp [unsubscribe, mapGet_mapSet_self]
  · rw [mapGet_mapSet_self]
    simp [setDelete, List.count_eq_zero, List.mem_filter]
  · intro x hx
    rw [mapGet_mapSet_self, hs1]
    simp [setDelete, List.mem_filter, hx]
  · intro t2 ht2
    rw [mapGet_mapSet_ne _ _ _ _ ht2, mapGet_mapSet_ne _ _ _ _ ht2]

/-- Witness for `claim9_unsubscribe_idempotent`: handler 3 subscribed to
`"log"` on a table already holding handler 5 for `"log"`. -/
theorem claim9_unsubscribe_idempotent_witness :
    ∃ ls2 ls3,
      unsubscribe (subscribe (subscribe [] "log" 5) "log" 3) "log" 3 = some ls2 ∧
      unsubscribe ls2 "log" 3 = some ls3 ∧
      List.count 3 ((mapGet ls3 "log").getD []) = 0 ∧
      (∀ x, x ≠ 3 →
        ((x ∈ (mapGet ls3 "log").getD []) ↔
         (x ∈ (mapGet (subscribe (subscribe [] "log" 5) "log" 3) "log").getD []))) ∧
      (∀ t2, t2 ≠ "log" →
        mapGet ls3 t2 = mapGet (subscribe (subscribe [] "log" 5) "log" 3) t2) :=
  claim9_unsubscribe_idempotent (subscribe [] "log" 5) "log" 3

/-- `ENV_VALUES` (server source lines 899-941): the mutable env object. -/
def ENV_VALUES : EnvStore :=
  [("BACKUP", .num 30), ("VER", .str "GL"), ("IP_ADDRESS", .str "192.168.0.110"),
   ("PORT", .str "8000"), ("USE_HTTPS", .bool false), ("ADMIN_PANEL", .bool true),
   ("ADMIN_PORT", .str "8080"), ("ADMIN_USERNAME", .str "admin"),
   ("ADMIN_PASSWORD", .str "password"), ("LOG_LEVEL", .str "error")]

/-- `send(ws, message)` inside `admin_panel` (server source lines
1137-1141): single-target send, silently skipped unless the target's
`readyState` is 1 (OPEN).  Connections are named by numbers and `ready`
gives each connection's readyState; the result is the list of
(target, envelope) deliveries performed. -/
def sendWs (ready : Nat → Nat) (ws : Nat) (m : Envelope) : List (Nat × Envelope) :=
  if ready ws = 1 then [(ws, m)] else []

/-- `broadcast(message)` (server source lines 1122-1130): send to every
member of the `clients` set whose `readyState` is 1. -/
def broadcast (ready : Nat → Nat) (clients : List Nat) (m : Envelope) : List (Nat × Envelope) :=
  (clients.filter fun c => decide (ready c = 1)).map fun c => (c, m)

/-- Result of one `_admin_websocket_functions` dispatch: the single-target
sends performed, the env store afterwards, whether a job-progress
interval was started (and for which job id), whether the process
restart/exit path was taken, and whether the handler threw (a `TypeError`
from reading a field off a nullish payload), which the caller's `catch`
observes. -/
structure HandlerResult where
  sent : List (Nat × Envelope) := []
  env : EnvStore
  driver : Option Int := none
  exit : Bool := false
  threw : Bool := false
deriving DecidableEq

/-- Reading `msg.payload.key`: `none` means the read itself throws
(payload is `undefined` or `null`); otherwise the field's value, absent
fields reading as `undefined`. -/
def getKeyField : JPayload → Option (Option JSValue)
  | .undef => none
  | .jnull => none
  | .obj key _ => some key
  | _ => some none

/-- Reading `msg.payload.value`, same conventions as `getKeyField`. -/
def getValueField : JPayload → Option (Option JSValue)
  | .undef => none
  | .jnull => none
  | .obj _ value => some value
  | _ => some none

/-- The `setEnvValue` case of `_admin_websocket_functions` (server source
lines 1519-1547).  The guard is
`(payload && payload.key == undefined) || (payload && payload.value == undefined) ||
 values[payload.key] == undefined || typeof values[payload.key] != typeof payload.value`;
when the payload itself is nullish the first two conjuncts are skipped and
the property read in the third throws. -/
def setEnvValueCase (ready : Nat → Nat) (ws : Nat) (env : EnvStore) (mid : Option Int)
    (pl : JPayload) : HandlerResult :=
  match getKeyField pl, getValueField pl with
  | some key, some value =>
      if isNullishOpt key || isNullishOpt value
          || isNullishOpt (mapGet env (propKey (key.getD .undef)))
          || decide (typeofOpt (mapGet env (propKey (key.getD .undef))) ≠ typeofOpt value) then
        { env := env,
          sent := sendWs ready ws { type := "error", id := mid, payload := .message "Key Error." } }
      else
        { env := mapSet env (propKey (key.getD .undef)) (value.getD .undef),
          sent := sendWs ready ws { type := "setEnvValue", id := mid, payload := .success true } }
  | _, _ => { env := env, threw := true }

/-- `_admin_websocket_functions` (server source lines 1461-1625): the
`switch (msg.type)` dispatch.  `currentLog` is `CURRENT_LOG`, `jobId` is
the `ID++` value passed by the message handler, and `nowStr` stands for
`humanReadable()` at the time of dispatch.  Only the single-target `send`
calls are recorded in `sent`; `Logger` lines go to the log channel, not
to the correlated response channel. -/
def _admin_websocket_functions (ready : Nat → Nat) (ws : Nat) (env : EnvStore)
    (currentLog : List String) (t : String) (mid : Option Int) (pl : JPayload)
    (jobId : Int) (nowStr : String) : HandlerResult :=
  if t = "restartServer" then
    { env := env, exit := true,
      sent := sendWs ready ws { type := "restartServer", id := mid, payload := .success true } }
  else if t = "shutdownServer" then
    { env := env, exit := true,
      sent := sendWs ready ws { type := "shutdownServer", id := mid, payload := .success true } }
  else if t = "installAsset" then { env := env }
  else if t = "uninstallAsset" then { env := env }
  else if t = "installPatch" then { env := env }
  else if t = "uninstallPatch" then { env := env }
  else if t = "getUserAccounts" then { env := env }
  else if t = "getSecret" then { env := env }
  else if t = "switchDevice" then { env := env }
  else if t = "timeRequest" then
    { env := env,
      sent := sendWs ready ws { type := "timeRequest", id := mid, payload := .time nowStr } }
  else if t = "getEnvValues" then
    { env := env,
      sent := sendWs ready ws { type := "getEnvValues", id := mid, payload := .envValues env } }
  else if t = "setEnvValue" then setEnvValueCase ready ws env mid pl
  else if t = "startProcess" then
    { env := env, driver := some jobId,
      sent := sendWs ready ws { type := "startProcess", id := mid, payload := .job jobId "Starting..." 0 } }
  else if t = "test" then
    { env := env,
      sent := sendWs ready ws { type := "test", id := mid, payload := .message "Logged test" } }
  else if t = "downloadLog" then
    { env := env,
      sent := sendWs ready ws { type := "downloadLog", id := mid, payload := .logFile "test.log" (String.intercalate "\n" currentLog) } }
  else
    { env := env,
      sent := sendWs ready ws { type := "error", id := mid, payload := .message "Unknown action" } }

/-- An inbound websocket frame as the server classifies it:
`malformed` when `JSON.parse` throws, otherwise the parsed message with
its `type` field (absent = `undefined`), its `id` field and its payload. -/
inductive Frame where
  | malformed
  | parsed (type : Option String) (mid : Option Int) (pl : JPayload)
deriving DecidableEq

/-- Result of the server's per-message handler (`ws.on("message")`,
server source lines 1211-1233): the deliveries performed, the env store,
any started job driver, whether the process exits, and whether the
connection was closed by the handler (it never is). -/
structure WsOut where
  sent : List (Nat × Envelope)
  env : EnvStore
  driver : Option Int
  exit : Bool
  closed : Bool
deriving DecidableEq

/-- The server `ws.on("message")` handler (server source lines
1211-1233): parse the frame; dispatch when a `type` field is present;
reply `Unknown action` (echoing `msg.id`) when it is absent; and on any
thrown error — parse failure or a handler throw — reply
`Invalid message format` with no id.  The connection is never closed. -/
def onWsMessage (ready : Nat → Nat) (ws : Nat) (env : EnvStore) (currentLog : List String)
    (frame : Frame) (jobId : Int) (nowStr : String) : WsOut :=
  match frame with
  | .malformed =>
      { sent := sendWs ready ws { type := "error", id := none, payload := .message "Invalid message format" },
        env := env, driver := none, exit := false, closed := false }
  | .parsed none mid _ =>
      { sent := sendWs ready ws { type := "error", id := mid, payload := .message "Unknown action" },
        env := env, driver := none, exit := false, closed := false }
  | .parsed (some t) mid pl =>
      let r := _admin_websocket_functions ready ws env currentLog t mid pl jobId nowStr
      if r.threw then
        { sent := sendWs ready ws { type := "error", id := none, payload := .message "Invalid message format" },
          env := env, driver := none, exit := false, closed := false }
      else
        { sent := r.sent, env := r.env, driver := r.driver, exit := r.exit, closed := false }

/-- The 15 message types recognized by the server switch. -/
def recognizedTypes : List String :=
  ["restartServer", "shutdownServer", "installAsset", "uninstallAsset", "installPatch",
   "uninstallPatch", "getUserAccounts", "getSecret", "switchDevice", "timeRequest",
   "getEnvValues", "setEnvValue", "startProcess", "test", "downloadLog"]

/-- The correlated request set named by the specification. -/
def claimCorrelatedTypes : List String :=
  ["timeRequest", "downloadLog", "getEnvValues", "setEnvValue", "startProcess", "test",
   "restartServer", "shutdownServer", "installAsset", "uninstallAsset", "installPatch",
   "uninstallPatch", "getUserAccounts", "getSecret", "switchDevice"]

/-- The recognized types whose handler actually sends a response. -/
def respondingTypes : List String :=
  ["restartServer", "shutdownServer", "timeRequest", "getEnvValues", "setEnvValue",
   "startProcess", "test", "downloadLog"]

/-- The recognized types whose handler is an empty stub (`break` with no
`send`). -/
def stubTypes : List String :=
  ["installAsset", "uninstallAsset", "installPatch", "uninstallPatch", "getUserAccounts",
   "getSecret", "switchDevice"]

/-- State of one `startProcess` interval driver (server source lines
1548-1578): the `percent` closure variable and whether the interval is
still armed (`clearInterval` not yet called). -/
structure DriverState where
  percent : Int
  active : Bool
deriving DecidableEq

/-- Driver state when the interval is installed. -/
def initDriver : DriverState := { percent := 0, active := true }

/-- One firing of the `startProcess` interval callback (server source
lines 1559-1577): `percent += 10`, send `jobProgress` to the originating
client, and at `percent >= 100` send one `jobComplete` and clear the
interval.  A cleared driver does nothing. -/
def driverTick (ready : Nat → Nat) (ws : Nat) (jobId : Int) (mid : Option Int)
    (s : DriverState) : DriverState × List (Nat × Envelope) :=
  if s.active then
    let p := s.percent + 10
    let out1 := sendWs ready ws { type := "jobProgress", id := mid, payload := .job jobId "Processing..." p }
    if p ≥ 100 then
      ({ percent := p, active := false },
       out1 ++ sendWs ready ws { type := "jobComplete", id := mid, payload := .job jobId "File processed successfully" p })
    else ({ percent := p, active := true }, out1)
  else (s, [])

/-- The deliveries over `n` interval firings. -/
def driverRun (ready : Nat → Nat) (ws : Nat) (jobId : Int) (mid : Option Int) :
    Nat → DriverState → List (Nat × Envelope)
  | 0, _ => []
  | n + 1, s =>
      (driverTick ready ws jobId mid s).2 ++
        driverRun ready ws jobId mid n (driverTick ready ws jobId mid s).1

/-- `driverTick` with the delivery stripped to the envelopes the callback
passes to `send` (proof device: the state evolution is independent of the
target's readiness). -/
def driverTickCalls (jobId : Int) (mid : Option Int) (s : DriverState) :
    DriverState × List Envelope :=
  if s.active then
    let p := s.percent + 10
    if p ≥ 100 then
      ({ percent := p, active := false },
       [{ type := "jobProgress", id := mid, payload := .job jobId "Processing..." p },
        { type := "jobComplete", id := mid, payload := .job jobId "File processed successfully" p }])
    else ({ percent := p, active := true },
          [{ type := "jobProgress", id := mid, payload := .job jobId "Processing..." p }])
  else (s, [])

/-- The envelopes passed to `send` over `n` interval firings. -/
def driverCallsRun (jobId : Int) (mid : Option Int) : Nat → DriverState → List Envelope
  | 0, _ => []
  | n + 1, s =>
      (driverTickCalls jobId mid s).2 ++
        driverCallsRun jobId mid n (driverTickCalls jobId mid s).1

/-- The driver state after `n` interval firings. -/
def driverSteps (jobId : Int) (mid : Option Int) : Nat → DriverState → DriverState
  | 0, s => s
  | n + 1, s => driverSteps jobId mid n (driverTickCalls jobId mid s).1

theorem driverRun_succ (ready : Nat → Nat) (ws : Nat) (jobId : Int) (mid : Option Int)
    (n : Nat) (s : DriverState) :
    driverRun ready ws jobId mid (n + 1) s =
      (driverTick ready ws jobId mid s).2 ++
        driverRun ready ws jobId mid n (driverTick ready ws jobId mid s).1 := rfl

theorem driverCallsRun_succ (jobId : Int) (mid : Option Int) (n : Nat) (s : DriverState) :
    driverCallsRun jobId mid (n + 1) s =
      (driverTickCalls jobId mid s).2 ++
        driverCallsRun jobId mid n (driverTickCalls jobId mid s).1 := rfl

/-- One tick delivers exactly the called envelopes to the originator when
it is open, and nothing otherwise; the state evolves identically. -/
theorem driverTick_eq (ready : Nat → Nat) (ws : Nat) (jobId : Int) (mid : Option Int)
    (s : DriverState) :
    driverTick ready ws jobId mid s =
      ((driverTickCalls jobId mid s).1,
       if ready ws = 1 then (driverTickCalls jobId mid s).2.map (fun m => (ws, m)) else []) := by
  unfold driverTick driverTickCalls sendWs
  by_cases ha : s.active
  · simp only [ha, if_true]
    by_cases hp : s.percent + 10 ≥ 100 <;> by_cases hr : ready ws = 1 <;>
      simp [hp, hr]
  · by_cases hr : ready ws = 1 <;> simp [ha, hr]

/-- A run delivers exactly the called envelopes to the originator when it
is open, and nothing otherwise. -/
theorem driverRun_eq (ready : Nat → Nat) (ws : Nat) (jobId : Int) (mid : Option Int) :
    ∀ (n : Nat) (s : DriverState),
      driverRun ready ws jobId mid n s =
        if ready ws = 1 then (driverCallsRun jobId mid n s).map (fun m => (ws, m)) else [] := by
  intro n
  induction n with
  | zero =>
      intro s
      by_cases hr : ready ws = 1 <;> simp [driverRun, driverCallsRun, hr]
  | succ n ih =>
      intro s
      rw [driverRun_succ, driverCallsRun_succ, driverTick_eq, ih]
      by_cases hr : ready ws = 1 <;> simp [hr]

/-- A cleared driver never emits again. -/
theorem driverCallsRun_inactive (jobId : Int) (mid : Option Int) :
    ∀ (n : Nat) (s : DriverState), s.active = false → driverCallsRun jobId mid n s = [] := by
  intro n
  induction n with
  | zero => intro s _; rfl
  | succ n ih =>
      intro s ha
      rw [driverCallsRun_succ]
      have ht : driverTickCalls jobId mid s = (s, []) := by
        unfold driverTickCalls
        simp [ha]
      rw [ht]
      simpa using ih s ha

/-- Peeling a run apart at a tick boundary. -/
theorem driverCallsRun_add (jobId : Int) (mid : Option Int) :
    ∀ (a b : Nat) (s : DriverState),
      driverCallsRun jobId mid (a + b) s =
        driverCallsRun jobId mid a s ++
          driverCallsRun jobId mid b (driverSteps jobId mid a s) := by
  intro a
  induction a with
  | zero => intro b s; simp [driverCallsRun, driverSteps]
  | succ a ih =>
      intro b s
      have hsa : a + 1 + b = (a + b) + 1 := by omega
      rw [hsa, driverCallsRun_succ, driverCallsRun_succ, ih]
      rw [List.append_assoc]
      rfl

/-- After ten ticks the driver has completed and cleared its interval. -/
theorem driverSteps_ten (jobId : Int) (mid : Option Int) :
    driverSteps jobId mid 10 initDriver = { percent := 100, active := false } := rfl

/-- The full emission sequence of one job driver: ten strictly increasing
`jobProgress` envelopes followed by exactly one `jobComplete`. -/
theorem driverCallsRun_ten (jobId : Int) (mid : Option Int) :
    driverCallsRun jobId mid 10 initDriver =
      [{ type := "jobProgress", id := mid, payload := .job jobId "Processing..." 10 },
       { type := "jobProgress", id := mid, payload := .job jobId "Processing..." 20 },
       { type := "jobProgress", id := mid, payload := .job jobId "Processing..." 30 },
       { type := "jobProgress", id := mid, payload := .job jobId "Processing..." 40 },
       { type := "jobProgress", id := mid, payload := .job jobId "Processing..." 50 },
       { type := "jobProgress", id := mid, payload := .job jobId "Processing..." 60 },
       { type := "jobProgress", id := mid, payload := .job jobId "Processing..." 70 },
       { type := "jobProgress", id := mid, payload := .job jobId "Processing..." 80 },
       { type := "jobProgress", id := mid, payload := .job jobId "Processing..." 90 },
       { type := "jobProgress", id := mid, payload := .job jobId "Processing..." 100 },
       { type := "jobComplete", id := mid, payload := .job jobId "File processed successfully" 100 }] := rfl

/-- Ten ticks exhaust the driver: longer runs emit nothing further. -/
theorem driverCallsRun_stable (jobId : Int) (mid : Option Int) (n : Nat) (hn : 10 ≤ n) :
    driverCallsRun jobId mid n initDriver = driverCallsRun jobId mid 10 initDriver := by
  obtain ⟨k, rfl⟩ := Nat.exists_eq_add_of_le hn
  rw [driverCallsRun_add, driverSteps_ten]
  rw [driverCallsRun_inactive jobId mid k _ rfl]
  simp

/-- The progress values of the `jobProgress` deliveries, in order. -/
def progressValues (tr : List (Nat × Envelope)) : List Int :=
  tr.filterMap fun p => match p.2.payload with
    | .job _ _ pr => if p.2.type == "jobProgress" then some pr else none
    | _ => none

/-- The number of `jobComplete` deliveries. -/
def completeCount (tr : List (Nat × Envelope)) : Nat :=
  tr.countP fun p => p.2.type == "jobComplete"

/-- With the originating connection open, a completed run delivers the
eleven envelopes of `driverCallsRun_ten` to the originator. -/
theorem driverRun_concrete (ready : Nat → Nat) (ws : Nat) (jobId : Int) (mid : Option Int)
    (n : Nat) (hr : ready ws = 1) (hn : 10 ≤ n) :
    driverRun ready ws jobId mid n initDriver =
      (driverCallsRun jobId mid 10 initDriver).map (fun m => (ws, m)) := by
  rw [driverRun_eq, driverCallsRun_stable jobId mid n hn]
  simp [hr]

/-- Claim C7: for a single job whose originating connection stays open,
every `jobProgress` carries a progress value strictly greater than the
previous one, exactly one `jobComplete` is delivered, the `jobComplete`
is the final delivery (after the last `jobProgress`), and once the
completion threshold is reached no further deliveries for that job occur
(runs longer than ten ticks deliver nothing more). -/
theorem claim7_job_ordering (ready : Nat → Nat) (ws : Nat) (jobId : Int) (mid : Option Int)
    (n : Nat) (hr : ready ws = 1) (hn : 10 ≤ n) :
    (progressValues (driverRun ready ws jobId mid n initDriver)).Pairwise (· < ·) ∧
    completeCount (driverRun ready ws jobId mid n initDriver) = 1 ∧
    (driverRun ready ws jobId mid n initDriver).getLast? =
      some (ws, { type := "jobComplete", id := mid, payload := .job jobId "File processed successfully" 100 }) ∧
    driverRun ready ws jobId mid n initDriver = driverRun ready ws jobId mid 10 initDriver := by
  have hT := driverRun_concrete ready ws jobId mid n hr hn
  rw [driverCallsRun_ten] at hT
  refine ⟨?_, ?_, ?_, ?_⟩
  · rw [hT]
    have hvals : progressValues
        (([{ type := "jobProgress", id := mid, payload := .job jobId "Processing..." 10 },
           { type := "jobProgress", id := mid, payload := .job jobId "Processing..." 20 },
           { type := "jobProgress", id := mid, payload := .job jobId "Processing..." 30 },
           { type := "jobProgress", id := mid, payload := .job jobId "Processing..." 40 },
           { type := "jobProgress", id := mid, payload := .job jobId "Processing..." 50 },
           { type := "jobProgress", id := mid, payload := .job jobId "Processing..." 60 },
           { type := "jobProgress", id := mid, payload := .job jobId "Processing..." 70 },
           { type := "jobProgress", id := mid, payload := .job jobId "Processing..." 80 },
           { type := "jobProgress", id := mid, payload := .job jobId "Processing..." 90 },
           { type := "jobProgress", id := mid, payload := .job jobId "Processing..." 100 },
           { type := "jobComplete", id := mid, payload := .job jobId "File processed successfully" 100 }] :
          List Envelope).map (fun m => (ws, m))) =
        [10, 20, 30, 40, 50, 60, 70, 80, 90, 100] := rfl
    rw [hvals]
    decide
  · rw [hT]
    rfl
  · rw [hT]
    rfl
  · rw [driverRun_eq, driverRun_eq, driverCallsRun_stable jobId mid n hn]

/-- Witness for `claim7_job_ordering` with originator 0 open, job id 0,
request id 3, at exactly ten ticks. -/
theorem claim7_job_ordering_witness :
    (progressValues (driverRun (fun _ => 1) 0 0 (some 3) 10 initDriver)).Pairwise (· < ·) ∧
    completeCount (driverRun (fun _ => 1) 0 0 (some 3) 10 initDriver) = 1 ∧
    (driverRun (fun _ => 1) 0 0 (some 3) 10 initDriver).getLast? =
      some (0, { type := "jobComplete", id := some 3, payload := .job 0 "File processed successfully" 100 }) ∧
    driverRun (fun _ => 1) 0 0 (some 3) 10 initDriver =
      driverRun (fun _ => 1) 0 0 (some 3) 10 initDriver :=
  claim7_job_ordering (fun _ => 1) 0 0 (some 3) 10 rfl (by decide)

/-- Counterexample to claim C2: with two clients 0 and 1 both connected
and open (`ready` is constantly 1), the first progress step of a job
started by client 0 delivers its `jobProgress` only to client 0 — client
1 receives nothing — whereas a `broadcast` of the same envelope would
reach both connected clients.  The driver uses the single-target `send`,
not `broadcast`. -/
theorem claim2_not_broadcast_counterexample :
    (driverTick (fun _ => 1) 0 0 (some 0) initDriver).2 =
      [(0, { type := "jobProgress", id := some 0, payload := .job 0 "Processing..." 10 })] ∧
    ¬ ((1, { type := "jobProgress", id := some 0, payload := .job 0 "Processing..." 10 }) ∈
        (driverTick (fun _ => 1) 0 0 (some 0) initDriver).2) ∧
    broadcast (fun _ => 1) [0, 1]
        { type := "jobProgress", id := some 0, payload := .job 0 "Processing..." 10 } =
      [(0, { type := "jobProgress", id := some 0, payload := .job 0 "Processing..." 10 }),
       (1, { type := "jobProgress", id := some 0, payload := .job 0 "Processing..." 10 })] := by
  refine ⟨rfl, ?_, rfl⟩
  decide

/-- Claim C2 as amended: every delivery of a job driver targets only the
originating client (whatever the other clients' states), and when the
originator stays open, a run reaching the completion threshold delivers
exactly one terminal `jobComplete` and the driver stops (no delivery
beyond the tenth tick). -/
theorem claim2_amended_originator_only (ready : Nat → Nat) (ws : Nat) (jobId : Int)
    (mid : Option Int) (n : Nat) :
    (∀ p ∈ driverRun ready ws jobId mid n initDriver, p.1 = ws) ∧
    (ready ws = 1 → 10 ≤ n →
      completeCount (driverRun ready ws jobId mid n initDriver) = 1 ∧
      driverRun ready ws jobId mid n initDriver = driverRun ready ws jobId mid 10 initDriver) := by
  constructor
  · intro p hp
    rw [driverRun_eq] at hp
    by_cases hr : ready ws = 1
    · rw [if_pos hr] at hp
      obtain ⟨m, _, rfl⟩ := List.mem_map.mp hp
      rfl
    · rw [if_neg hr] at hp
      cases hp
  · intro hr hn
    refine ⟨?_, ?_⟩
    · rw [driverRun_concrete ready ws jobId mid n hr hn, driverCallsRun_ten]
      rfl
    · rw [driverRun_eq, driverRun_eq, driverCallsRun_stable jobId mid n hn]

/-- Witness for `claim2_amended_originator_only` with originator 0 open,
job id 1, request id 2, eleven ticks. -/
theorem claim2_amended_originator_only_witness :
    completeCount (driverRun (fun _ => 1) 0 1 (some 2) 11 initDriver) = 1 ∧
    driverRun (fun _ => 1) 0 1 (some 2) 11 initDriver =
      driverRun (fun _ => 1) 0 1 (some 2) 10 initDriver :=
  (claim2_amended_originator_only (fun _ => 1) 0 1 (some 2) 11).2 rfl (by decide)

/-- The `setEnvValue` handler, when it does not throw, always sends
exactly one envelope to the requester carrying the request id. -/
theorem setEnvValueCase_one_send (ready : Nat → Nat) (ws : Nat) (env : EnvStore)
    (mid : Option Int) (pl : JPayload) (hr : ready ws = 1)
    (hthrew : (setEnvValueCase ready ws env mid pl).threw = false) :
    ∃ e : Envelope, (setEnvValueCase ready ws env mid pl).sent = [(ws, e)] ∧ e.id = mid := by
  cases pl with
  | undef => exact absurd hthrew (by simp [setEnvValueCase, getKeyField, getValueField])
  | jnull => exact absurd hthrew (by simp [setEnvValueCase, getKeyField, getValueField])
  | obj key value =>
      by_cases hcond : (isNullishOpt key || isNullishOpt value
          || isNullishOpt (mapGet env (propKey (key.getD .undef)))
          || decide (typeofOpt (mapGet env (propKey (key.getD .undef))) ≠ typeofOpt value)) = true
      · refine ⟨{ type := "error", id := mid, payload := .message "Key Error." }, ?_, rfl⟩
        simp only [setEnvValueCase, getKeyField, getValueField]
        rw [if_pos hcond]
        simp [sendWs, hr]
      · refine ⟨{ type := "setEnvValue", id := mid, payload := .success true }, ?_, rfl⟩
        simp only [setEnvValueCase, getKeyField, getValueField]
        rw [if_neg hcond]
        simp [sendWs, hr]
  | success b =>
      exact ⟨{ type := "error", id := mid, payload := .message "Key Error." },
        by simp [setEnvValueCase, getKeyField, getValueField, isNullishOpt, sendWs, hr], rfl⟩
  | time ts =>
      exact ⟨{ type := "error", id := mid, payload := .message "Key Error." },
        by simp [setEnvValueCase, getKeyField, getValueField, isNullishOpt, sendWs, hr], rfl⟩
  | envValues ev =>
      exact ⟨{ type := "error", id := mid, payload := .message "Key Error." },
        by simp [setEnvValueCase, getKeyField, getValueField, isNullishOpt, sendWs, hr], rfl⟩
  | job j sta pr =>
      exact ⟨{ type := "error", id := mid, payload := .message "Key Error." },
        by simp [setEnvValueCase, getKeyField, getValueField, isNullishOpt, sendWs, hr], rfl⟩
  | message ms =>
      exact ⟨{ type := "error", id := mid, payload := .message "Key Error." },
        by simp [setEnvValueCase, getKeyField, getValueField, isNullishOpt, sendWs, hr], rfl⟩
  | logFile nm tx =>
      exact ⟨{ type := "error", id := mid, payload := .message "Key Error." },
        by simp [setEnvValueCase, getKeyField, getValueField, isNullishOpt, sendWs, hr], rfl⟩

/-- Counterexample to claim C1: `installAsset` is in the claimed
correlated set, yet its handler case is an empty stub — the server sends
zero response envelopes for it, not exactly one. -/
theorem claim1_stub_counterexample :
    "installAsset" ∈ claimCorrelatedTypes ∧
    (_admin_websocket_functions (fun _ => 1) 0 ENV_VALUES [] "installAsset" (some 5) .undef 0
      "now").sent = [] := by
  refine ⟨by decide, rfl⟩

/-- Claim C1 as amended: for the eight recognized types whose case
actually replies (`timeRequest`, `downloadLog`, `getEnvValues`,
`setEnvValue`, `startProcess`, `test`, `restartServer`,
`shutdownServer`), a dispatch to an open requester that does not throw
(only `setEnvValue` on a nullish payload throws, which the outer catch
turns into an id-less error) sends exactly one response envelope via the
single-target `send`, and it carries the request's id; the seven stub
types (`installAsset`, `uninstallAsset`, `installPatch`,
`uninstallPatch`, `getUserAccounts`, `getSecret`, `switchDevice`) send
none.  (The later `jobProgress`/`jobComplete` events of a started job
reuse the same id on the wire but are subscription events, not
responses.) -/
theorem claim1_amended_one_response (ready : Nat → Nat) (ws : Nat) (env : EnvStore)
    (currentLog : List String) (t : String) (mid : Option Int) (pl : JPayload)
    (jobId : Int) (nowStr : String) :
    (ready ws = 1 → t ∈ respondingTypes →
      (_admin_websocket_functions ready ws env currentLog t mid pl jobId nowStr).threw = false →
      ∃ e : Envelope,
        (_admin_websocket_functions ready ws env currentLog t mid pl jobId nowStr).sent =
          [(ws, e)] ∧ e.id = mid) ∧
    (t ∈ stubTypes →
      (_admin_websocket_functions ready ws env currentLog t mid pl jobId nowStr).sent = []) := by
  constructor
  · intro hr ht hthrew
    have ht2 : t = "restartServer" ∨ t = "shutdownServer" ∨ t = "timeRequest" ∨
        t = "getEnvValues" ∨ t = "setEnvValue" ∨ t = "startProcess" ∨ t = "test" ∨
        t = "downloadLog" := by simpa [respondingTypes] using ht
    rcases ht2 with rfl | rfl | rfl | rfl | rfl | rfl | rfl | rfl
    · exact ⟨{ type := "restartServer", id := mid, payload := .success true },
        by simp [_admin_websocket_functions, sendWs, hr], rfl⟩
    · exact ⟨{ type := "shutdownServer", id := mid, payload := .success true },
        by simp [_admin_websocket_functions, sendWs, hr], rfl⟩
    · exact ⟨{ type := "timeRequest", id := mid, payload := .time nowStr },
        by simp [_admin_websocket_functions, sendWs, hr], rfl⟩
    · exact ⟨{ type := "getEnvValues", id := mid, payload := .envValues env },
        by simp [_admin_websocket_functions, sendWs, hr], rfl⟩
    · have hred : _admin_websocket_functions ready ws env currentLog "setEnvValue" mid pl
          jobId nowStr = setEnvValueCase ready ws env mid pl := by
        simp [_admin_websocket_functions]
      rw [hred]
      rw [hred] at hthrew
      exact setEnvValueCase_one_send ready ws env mid pl hr hthrew
    · exact ⟨{ type := "startProcess", id := mid, payload := .job jobId "Starting..." 0 },
        by simp [_admin_websocket_functions, sendWs, hr], rfl⟩
    · exact ⟨{ type := "test", id := mid, payload := .message "Logged test" },
        by simp [_admin_websocket_functions, sendWs, hr], rfl⟩
    · exact ⟨{ type := "downloadLog", id := mid,
               payload := .logFile "test.log" (String.intercalate "\n" currentLog) },
        by simp [_admin_websocket_functions, sendWs, hr], rfl⟩
  · intro ht
    have ht2 : t = "installAsset" ∨ t = "uninstallAsset" ∨ t = "installPatch" ∨
        t = "uninstallPatch" ∨ t = "getUserAccounts" ∨ t = "getSecret" ∨
        t = "switchDevice" := by simpa [stubTypes] using ht
    rcases ht2 with rfl | rfl | rfl | rfl | rfl | rfl | rfl <;>
      simp [_admin_websocket_functions]

/-- Witness for `claim1_amended_one_response`: a `timeRequest` with id 7
to an open requester gets exactly one response carrying id 7, and an
`installAsset` request gets none. -/
theorem claim1_amended_one_response_witness :
    (∃ e : Envelope,
      (_admin_websocket_functions (fun _ => 1) 0 ENV_VALUES [] "timeRequest" (some 7) .undef 0
        "now").sent = [(0, e)] ∧ e.id = some 7) ∧
    (_admin_websocket_functions (fun _ => 1) 0 ENV_VALUES [] "installAsset" (some 7) .undef 0
      "now").sent = [] :=
  ⟨(claim1_amended_one_response (fun _ => 1) 0 ENV_VALUES [] "timeRequest" (some 7) .undef 0
      "now").1 rfl (by decide) rfl,
   (claim1_amended_one_response (fun _ => 1) 0 ENV_VALUES [] "installAsset" (some 7) .undef 0
      "now").2 (by decide)⟩

/-- Types outside the switch hit the `default` case: an `Unknown action`
error echoing the message id. -/
theorem handler_unknown (ready : Nat → Nat) (ws : Nat) (env : EnvStore)
    (currentLog : List String) (t : String) (mid : Option Int) (pl : JPayload)
    (jobId : Int) (nowStr : String) (ht : t ∉ recognizedTypes) :
    _admin_websocket_functions ready ws env currentLog t mid pl jobId nowStr =
      { env := env,
        sent := sendWs ready ws { type := "error", id := mid, payload := .message "Unknown action" } } := by
  have hne : ¬(t = "restartServer") ∧ ¬(t = "shutdownServer") ∧ ¬(t = "installAsset") ∧
      ¬(t = "uninstallAsset") ∧ ¬(t = "installPatch") ∧ ¬(t = "uninstallPatch") ∧
      ¬(t = "getUserAccounts") ∧ ¬(t = "getSecret") ∧ ¬(t = "switchDevice") ∧
      ¬(t = "timeRequest") ∧ ¬(t = "getEnvValues") ∧ ¬(t = "setEnvValue") ∧
      ¬(t = "startProcess") ∧ ¬(t = "test") ∧ ¬(t = "downloadLog") := by
    simpa [recognizedTypes, not_or] using ht
  obtain ⟨n1, n2, n3, n4, n5, n6, n7, n8, n9, n10, n11, n12, n13, n14, n15⟩ := hne
  simp [_admin_websocket_functions, n1, n2, n3, n4, n5, n6, n7, n8, n9, n10, n11, n12, n13,
    n14, n15]

/-- Claim C8: a parseable frame whose `type` is not recognized (or is
absent) gets exactly one `error` envelope `Unknown action` echoing the
original id; a malformed frame gets one `error` envelope
`Invalid message format` with no id; in all cases the handler leaves the
connection open. -/
theorem claim8_unknown_and_malformed (ready : Nat → Nat) (ws : Nat) (env : EnvStore)
    (currentLog : List String) (mid : Option Int) (pl : JPayload) (jobId : Int)
    (nowStr : String) (hr : ready ws = 1) :
    (∀ t, t ∉ recognizedTypes →
      (onWsMessage ready ws env currentLog (.parsed (some t) mid pl) jobId nowStr).sent =
        [(ws, { type := "error", id := mid, payload := .message "Unknown action" })] ∧
      (onWsMessage ready ws env currentLog (.parsed (some t) mid pl) jobId nowStr).closed =
        false) ∧
    ((onWsMessage ready ws env currentLog (.parsed none mid pl) jobId nowStr).sent =
        [(ws, { type := "error", id := mid, payload := .message "Unknown action" })] ∧
     (onWsMessage ready ws env currentLog (.parsed none mid pl) jobId nowStr).closed = false) ∧
    ((onWsMessage ready ws env currentLog .malformed jobId nowStr).sent =
        [(ws, { type := "error", id := none, payload := .message "Invalid message format" })] ∧
     (onWsMessage ready ws env currentLog .malformed jobId nowStr).closed = false) := by
  refine ⟨?_, ⟨?_, ?_⟩, ⟨?_, ?_⟩⟩
  · intro t ht
    have hu := handler_unknown ready ws env currentLog t mid pl jobId nowStr ht
    constructor
    · simp [onWsMessage, hu, sendWs, hr]
    · simp [onWsMessage, hu]
  · simp [onWsMessage, sendWs, hr]
  · simp [onWsMessage]
  · simp [onWsMessage, sendWs, hr]
  · simp [onWsMessage]

/-- Witness for `claim8_unknown_and_malformed`: the unknown type
`doesNotExist` with id 9, a frame with no `type` field, and a malformed
frame, all against an open connection. -/
theorem claim8_unknown_and_malformed_witness :
    ((onWsMessage (fun _ => 1) 0 ENV_VALUES [] (.parsed (some "doesNotExist") (some 9) .undef)
        0 "n").sent =
      [(0, { type := "error", id := some 9, payload := .message "Unknown action" })] ∧
     (onWsMessage (fun _ => 1) 0 ENV_VALUES [] (.parsed (some "doesNotExist") (some 9) .undef)
        0 "n").closed = false) ∧
    ((onWsMessage (fun _ => 1) 0 ENV_VALUES [] (.parsed none (some 9) .undef) 0 "n").sent =
      [(0, { type := "error", id := some 9, payload := .message "Unknown action" })] ∧
     (onWsMessage (fun _ => 1) 0 ENV_VALUES [] (.parsed none (some 9) .undef) 0 "n").closed =
       false) ∧
    ((onWsMessage (fun _ => 1) 0 ENV_VALUES [] .malformed 0 "n").sent =
      [(0, { type := "error", id := none, payload := .message "Invalid message format" })] ∧
     (onWsMessage (fun _ => 1) 0 ENV_VALUES [] .malformed 0 "n").closed = false) :=
  ⟨(claim8_unknown_and_malformed (fun _ => 1) 0 ENV_VALUES [] (some 9) .undef 0 "n" rfl).1
      "doesNotExist" (by decide),
   (claim8_unknown_and_malformed (fun _ => 1) 0 ENV_VALUES [] (some 9) .undef 0 "n" rfl).2.1,
   (claim8_unknown_and_malformed (fun _ => 1) 0 ENV_VALUES [] (some 9) .undef 0 "n" rfl).2.2⟩

/-- Claim C10: a `setEnvValue` whose payload object is missing the key or
the value, names a key absent from the env store, or carries a value
whose `typeof` differs from the stored value's, gets a single
`\x7bmessage: "Key Error."\x7d` error echoing the request id and leaves the
env store entirely unchanged; a valid `setEnvValue` updates exactly the
named key and gets a `setEnvValue` response `\x7bsuccess: true\x7d` with the
same id. -/
theorem claim10_setEnvValue (ready : Nat → Nat) (ws : Nat) (env : EnvStore)
    (currentLog : List String) (mid : Option Int) (key value : Option JSValue)
    (jobId : Int) (nowStr : String) (hr : ready ws = 1) :
    ((key = none ∨ value = none ∨ mapGet env (propKey (key.getD .undef)) = none ∨
        typeofOpt (mapGet env (propKey (key.getD .undef))) ≠ typeofOpt value) →
      (_admin_websocket_functions ready ws env currentLog "setEnvValue" mid (.obj key value)
          jobId nowStr).sent =
        [(ws, { type := "error", id := mid, payload := .message "Key Error." })] ∧
      (_admin_websocket_functions ready ws env currentLog "setEnvValue" mid (.obj key value)
          jobId nowStr).env = env) ∧
    (∀ k0 v0 v1, key = some k0 → value = some v0 → isNullish k0 = false →
      isNullish v0 = false → mapGet env (propKey k0) = some v1 → isNullish v1 = false →
      typeof v1 = typeof v0 →
      (_admin_websocket_functions ready ws env currentLog "setEnvValue" mid (.obj key value)
          jobId nowStr).sent =
        [(ws, { type := "setEnvValue", id := mid, payload := .success true })] ∧
      mapGet (_admin_websocket_functions ready ws env currentLog "setEnvValue" mid
          (.obj key value) jobId nowStr).env (propKey k0) = some v0 ∧
      (∀ k2, k2 ≠ propKey k0 →
        mapGet (_admin_websocket_functions ready ws env currentLog "setEnvValue" mid
          (.obj key value) jobId nowStr).env k2 = mapGet env k2)) := by
  have hred : _admin_websocket_functions ready ws env currentLog "setEnvValue" mid
      (.obj key value) jobId nowStr = setEnvValueCase ready ws env mid (.obj key value) := by
    simp [_admin_websocket_functions]
  constructor
  · intro hcond
    have hcondb : (isNullishOpt key || isNullishOpt value
        || isNullishOpt (mapGet env (propKey (key.getD .undef)))
        || decide (typeofOpt (mapGet env (propKey (key.getD .undef))) ≠ typeofOpt value)) =
        true := by
      simp only [Bool.or_eq_true, decide_eq_true_eq]
      rcases hcond with hk | hv | hs | htp
      · exact Or.inl (Or.inl (Or.inl (by rw [hk]; rfl)))
      · exact Or.inl (Or.inl (Or.inr (by rw [hv]; rfl)))
      · exact Or.inl (Or.inr (by rw [hs]; rfl))
      · exact Or.inr htp
    rw [hred]
    constructor
    · simp only [setEnvValueCase, getKeyField, getValueField]
      rw [if_pos hcondb]
      simp [sendWs, hr]
    · simp only [setEnvValueCase, getKeyField, getValueField]
      rw [if_pos hcondb]
  · intro k0 v0 v1 hk hv hnk hnv hstored hnv1 htyp
    subst hk
    subst hv
    have hcondb : (isNullishOpt (some k0) || isNullishOpt (some v0)
        || isNullishOpt (mapGet env (propKey ((some k0).getD .undef)))
        || decide (typeofOpt (mapGet env (propKey ((some k0).getD .undef))) ≠
            typeofOpt (some v0))) = false := by
      simp [isNullishOpt, hnk, hnv, hstored, hnv1, typeofOpt, htyp]
    rw [hred]
    have hcase : setEnvValueCase ready ws env mid (.obj (some k0) (some v0)) =
        { env := mapSet env (propKey k0) v0,
          sent := sendWs ready ws { type := "setEnvValue", id := mid, payload := .success true } } := by
      simp only [setEnvValueCase, getKeyField, getValueField]
      rw [if_neg (by rw [hcondb]; exact Bool.false_ne_true)]
      rfl
    rw [hcase]
    refine ⟨by simp [sendWs, hr], ?_, ?_⟩
    · exact mapGet_mapSet_self env (propKey k0) v0
    · intro k2 hk2
      exact mapGet_mapSet_ne env (propKey k0) k2 v0 hk2

/-- Witness for `claim10_setEnvValue`: key `NOPE` is absent from
`ENV_VALUES`, so setting it yields `Key Error.` and leaves the store
unchanged; setting `VER` (stored as a string) to the string `JP` succeeds,
updates `VER` and leaves `PORT` unchanged. -/
theorem claim10_setEnvValue_witness :
    ((_admin_websocket_functions (fun _ => 1) 0 ENV_VALUES [] "setEnvValue" (some 4)
        (.obj (some (.str "NOPE")) (some (.str "x"))) 0 "n").sent =
      [(0, { type := "error", id := some 4, payload := .message "Key Error." })] ∧
     (_admin_websocket_functions (fun _ => 1) 0 ENV_VALUES [] "setEnvValue" (some 4)
        (.obj (some (.str "NOPE")) (some (.str "x"))) 0 "n").env = ENV_VALUES) ∧
    ((_admin_websocket_functions (fun _ => 1) 0 ENV_VALUES [] "setEnvValue" (some 4)
        (.obj (some (.str "VER")) (some (.str "JP"))) 0 "n").sent =
      [(0, { type := "setEnvValue", id := some 4, payload := .success true })] ∧
     mapGet (_admin_websocket_functions (fun _ => 1) 0 ENV_VALUES [] "setEnvValue" (some 4)
        (.obj (some (.str "VER")) (some (.str "JP"))) 0 "n").env "VER" = some (.str "JP") ∧
     mapGet (_admin_websocket_functions (fun _ => 1) 0 ENV_VALUES [] "setEnvValue" (some 4)
        (.obj (some (.str "VER")) (some (.str "JP"))) 0 "n").env "PORT" =
       mapGet ENV_VALUES "PORT") :=
  ⟨(claim10_setEnvValue (fun _ => 1) 0 ENV_VALUES [] (some 4) (some (.str "NOPE"))
      (some (.str "x")) 0 "n" rfl).1 (Or.inr (Or.inr (Or.inl (by decide)))),
   by
    have h2 := (claim10_setEnvValue (fun _ => 1) 0 ENV_VALUES [] (some 4) (some (.str "VER"))
      (some (.str "JP")) 0 "n" rfl).2 (.str "VER") (.str "JP") (.str "GL") rfl rfl rfl rfl
      (by decide) rfl rfl
    exact ⟨h2.1, h2.2.1, h2.2.2 "PORT" (by decide)⟩⟩

end Dffoo
